import Mathlib

/-!
Verification development for the byte-vision-mcp repository.

The definitions below are a shallow embedding of the Go source: the argument
resolver prepareLlamaArgs and the request handler handleCompletionTool from
main.go, the configuration helpers from types.go, and an operational model of
the cancellable executor GenerateSingleCompletionWithCancel from model.go.

Embedding conventions:
- Go machine integers are modelled as Int (the values involved are far from
  the 64 bit bounds; overflow inside strconv.Atoi is not modelled).
- Go float64 values are modelled as Rat; fmt.Sprintf with the verb %.2f is
  modelled as exact decimal rounding of the rational value to two places.
- strconv.Atoi and strconv.ParseFloat are modelled on the plain decimal forms
  they accept; the exotic ParseFloat inputs (exponents, hex floats, inf and
  NaN spellings) are not modelled, which only narrows the set of strings
  that parse successfully.
- The goroutine, unbuffered channel and select statement of model.go are
  modelled as a small step transition system over an explicit state type.
-/

namespace ByteVisionMCP

/-- Accumulator loop over a run of characters: succeeds with the base ten
value when every character is a decimal digit, fails otherwise. -/
def parseDigitsCore : List Char → Nat → Option Nat
  | [], acc => some acc
  | c :: cs, acc =>
      if c.isDigit then parseDigitsCore cs (10 * acc + (c.toNat - 48)) else none

/-- A nonempty all digit run, as strconv.Atoi requires after the optional
sign character. -/
def parseDigits : List Char → Option Nat
  | [] => none
  | c :: cs => parseDigitsCore (c :: cs) 0

/-- Model of strconv.Atoi from the Go standard library, as used in
prepareLlamaArgs (main.go) and getEnvInt (types.go): an optional single
leading plus or minus sign followed by at least one decimal digit. The
64 bit range check of the Go implementation is not modelled. -/
def goAtoi (s : String) : Option Int :=
  match s.toList with
  | [] => none
  | '+' :: cs => (parseDigits cs).map (fun n => (n : Int))
  | '-' :: cs => (parseDigits cs).map (fun n => -(n : Int))
  | cs => (parseDigits cs).map (fun n => (n : Int))

/-- Base ten value of a digit list (used for the fractional part, where an
empty run is taken as zero). -/
def digitsVal (cs : List Char) : Nat :=
  cs.foldl (fun acc c => 10 * acc + (c.toNat - 48)) 0

/-- Core of the strconv.ParseFloat model, after the optional sign: digits,
optionally followed by a decimal point and further digits, with at least one
digit overall. Exponent, hex, inf and NaN forms accepted by the Go function
are not modelled (they never arise in this configuration format). -/
def goParseFloatCore (cs : List Char) : Option Rat :=
  let ip := cs.takeWhile Char.isDigit
  let rest := cs.dropWhile Char.isDigit
  match rest with
  | [] => if ip.isEmpty then none else some ((digitsVal ip : Nat) : Rat)
  | '.' :: rest2 =>
      let fp := rest2.takeWhile Char.isDigit
      let rest3 := rest2.dropWhile Char.isDigit
      if rest3.isEmpty && !(ip.isEmpty && fp.isEmpty) then
        some ((digitsVal ip : Rat) + (digitsVal fp : Rat) / ((10 : Rat) ^ fp.length))
      else none
  | _ => none

/-- Model of strconv.ParseFloat (bit size 64) on its plain decimal inputs,
as used for the configured default temperature, top P and repeat penalty
strings in prepareLlamaArgs. -/
def goParseFloat (s : String) : Option Rat :=
  match s.toList with
  | [] => none
  | '+' :: cs => goParseFloatCore cs
  | '-' :: cs => (goParseFloatCore cs).map Neg.neg
  | cs => goParseFloatCore cs

/-- The Go idiom, from prepareLlamaArgs, for integer valued configuration
defaults: v, err := strconv.Atoi(s); err == nil && v > 0. -/
def parsesPositiveInt (s : String) : Bool :=
  match goAtoi s with
  | some n => decide (0 < n)
  | none => false

/-- The Go idiom, from prepareLlamaArgs, for float valued configuration
defaults: v, err := strconv.ParseFloat(s, 64); err == nil && v > 0. -/
def parsesPositiveFloat (s : String) : Bool :=
  match goParseFloat s with
  | some q => decide (0 < q)
  | none => false

/-- The numerator of the two place decimal rounding of the absolute value:
the nonnegative integer nearest to 100 times the absolute value (ties round
up), as produced by the verb %.2f of fmt.Sprintf. -/
def fmtF2Scaled (q : Rat) : Nat :=
  ((|q| * 100 + 1 / 2).floor).toNat

/-- Integer part of the %.2f rendering, with the sign of the value. -/
def fmtF2IntPart (q : Rat) : String :=
  (if q < 0 then "-" else "") ++ toString (fmtF2Scaled q / 100)

/-- Fractional part of the %.2f rendering: always exactly two decimal digit
characters (the zero padded remainder modulo 100). -/
def fmtF2FracPart (q : Rat) : String :=
  String.mk [Char.ofNat (48 + (fmtF2Scaled q / 10) % 10),
             Char.ofNat (48 + fmtF2Scaled q % 10)]

/-- Model of fmt.Sprintf with the verb %.2f, applied in prepareLlamaArgs to
the float override values. Go formats the binary float64 with round to
nearest; here the rounding is taken on the exact rational value, which
agrees on the two place decimals arising in this program. -/
def fmtF2 (q : Rat) : String :=
  fmtF2IntPart q ++ "." ++ fmtF2FracPart q

/-- The subset of the Go LlamaCliArgs struct (types.go) read by
prepareLlamaArgs, plus the configured default prompt text PromptText (which
the resolver never reads). The remaining fields of the Go struct are not
consulted by the resolver and are omitted from the model. -/
structure LlamaCliArgs where
  ModelCmd : String := ""
  ModelFullPathVal : String := ""
  PromptCmd : String := ""
  PromptText : String := ""
  PromptFileCmd : String := ""
  ThreadsCmd : String := ""
  ThreadsVal : String := ""
  GPULayersCmd : String := ""
  GPULayersVal : String := ""
  CtxSizeCmd : String := ""
  CtxSizeVal : String := ""
  BatchCmd : String := ""
  BatchCmdVal : String := ""
  PredictCmd : String := ""
  PredictVal : String := ""
  TemperatureCmd : String := ""
  TemperatureVal : String := ""
  TopKCmd : String := ""
  TopKVal : String := ""
  TopPCmd : String := ""
  TopPVal : String := ""
  RepeatPenaltyCmd : String := ""
  RepeatPenaltyVal : String := ""
  ModelLogFileCmd : String := ""
  ModelLogFileNameVal : String := ""
  MultilineInputCmd : String := ""
  MultilineInputCmdEnabled : Bool := false
  FlashAttentionCmd : String := ""
  FlashAttentionCmdEnabled : Bool := false
  PromptCacheCmd : String := ""
  PromptCacheVal : String := ""
  NoDisplayPromptCmd : String := ""
  NoDisplayPromptEnabled : Bool := false
  EscapeNewLinesCmd : String := ""
  EscapeNewLinesCmdEnabled : Bool := false
  NoConversationCmd : String := ""
  NoConversationCmdEnabled : Bool := false
  NoContextShiftCmd : String := ""
  NoContextShiftCmdEnabled : Bool := false
deriving DecidableEq

/-- The CompletionArguments struct of main.go: the per request override set.
Absent scalar overrides are the zero values, exactly as in Go. -/
structure CompletionArguments where
  Prompt : String := ""
  Model : String := ""
  Threads : Int := 0
  GpuLayers : Int := 0
  CtxSize : Int := 0
  BatchSize : Int := 0
  Predict : Int := 0
  Temperature : Rat := 0
  TopK : Int := 0
  TopP : Rat := 0
  RepeatPenalty : Rat := 0
  PromptFile : String := ""
  LogFile : String := ""
deriving DecidableEq

/-- Transliteration of prepareLlamaArgs (main.go, lines 952 to 1074): each
let step mirrors one append block of the Go function, in source order. -/
def prepareLlamaArgs (llamaCliArgs : LlamaCliArgs) (arguments : CompletionArguments) :
    List String :=
  let args : List String := []
  let args := if arguments.Model ≠ "" then
      args ++ [llamaCliArgs.ModelCmd, arguments.Model]
    else if llamaCliArgs.ModelFullPathVal ≠ "" then
      args ++ [llamaCliArgs.ModelCmd, llamaCliArgs.ModelFullPathVal]
    else args
  let args := if 0 < arguments.Threads then
      args ++ [llamaCliArgs.ThreadsCmd, toString arguments.Threads]
    else if parsesPositiveInt llamaCliArgs.ThreadsVal then
      args ++ [llamaCliArgs.ThreadsCmd, llamaCliArgs.ThreadsVal]
    else args
  let args := if 0 < arguments.GpuLayers then
      args ++ [llamaCliArgs.GPULayersCmd, toString arguments.GpuLayers]
    else if parsesPositiveInt llamaCliArgs.GPULayersVal then
      args ++ [llamaCliArgs.GPULayersCmd, llamaCliArgs.GPULayersVal]
    else args
  let args := if 0 < arguments.CtxSize then
      args ++ [llamaCliArgs.CtxSizeCmd, toString arguments.CtxSize]
    else if parsesPositiveInt llamaCliArgs.CtxSizeVal then
      args ++ [llamaCliArgs.CtxSizeCmd, llamaCliArgs.CtxSizeVal]
    else args
  let args := if 0 < arguments.BatchSize then
      args ++ [llamaCliArgs.BatchCmd, toString arguments.BatchSize]
    else if parsesPositiveInt llamaCliArgs.BatchCmdVal then
      args ++ [llamaCliArgs.BatchCmd, llamaCliArgs.BatchCmdVal]
    else args
  let args := if 0 < arguments.Predict then
      args ++ [llamaCliArgs.PredictCmd, toString arguments.Predict]
    else if parsesPositiveInt llamaCliArgs.PredictVal then
      args ++ [llamaCliArgs.PredictCmd, llamaCliArgs.PredictVal]
    else args
  let args := if 0 < arguments.Temperature then
      args ++ [llamaCliArgs.TemperatureCmd, fmtF2 arguments.Temperature]
    else if parsesPositiveFloat llamaCliArgs.TemperatureVal then
      args ++ [llamaCliArgs.TemperatureCmd, llamaCliArgs.TemperatureVal]
    else args
  let args := if 0 < arguments.TopK then
      args ++ [llamaCliArgs.TopKCmd, toString arguments.TopK]
    else if parsesPositiveInt llamaCliArgs.TopKVal then
      args ++ [llamaCliArgs.TopKCmd, llamaCliArgs.TopKVal]
    else args
  let args := if 0 < arguments.TopP then
      args ++ [llamaCliArgs.TopPCmd, fmtF2 arguments.TopP]
    else if parsesPositiveFloat llamaCliArgs.TopPVal then
      args ++ [llamaCliArgs.TopPCmd, llamaCliArgs.TopPVal]
    else args
  let args := if 0 < arguments.RepeatPenalty then
      args ++ [llamaCliArgs.RepeatPenaltyCmd, fmtF2 arguments.RepeatPenalty]
    else if parsesPositiveFloat llamaCliArgs.RepeatPenaltyVal then
      args ++ [llamaCliArgs.RepeatPenaltyCmd, llamaCliArgs.RepeatPenaltyVal]
    else args
  let args := if arguments.PromptFile ≠ "" then
      args ++ [llamaCliArgs.PromptFileCmd, arguments.PromptFile]
    else if arguments.Prompt ≠ "" then
      args ++ [llamaCliArgs.PromptCmd, arguments.Prompt]
    else args
  let args := if arguments.LogFile ≠ "" then
      args ++ [llamaCliArgs.ModelLogFileCmd, arguments.LogFile]
    else if llamaCliArgs.ModelLogFileNameVal ≠ "" then
      args ++ [llamaCliArgs.ModelLogFileCmd, llamaCliArgs.ModelLogFileNameVal]
    else args
  let args := if llamaCliArgs.MultilineInputCmdEnabled then
      args ++ [llamaCliArgs.MultilineInputCmd] else args
  let args := if llamaCliArgs.FlashAttentionCmdEnabled then
      args ++ [llamaCliArgs.FlashAttentionCmd] else args
  let args := if llamaCliArgs.PromptCacheVal ≠ "" then
      args ++ [llamaCliArgs.PromptCacheCmd, llamaCliArgs.PromptCacheVal] else args
  let args := if llamaCliArgs.NoDisplayPromptEnabled then
      args ++ [llamaCliArgs.NoDisplayPromptCmd] else args
  let args := if llamaCliArgs.EscapeNewLinesCmdEnabled then
      args ++ [llamaCliArgs.EscapeNewLinesCmd] else args
  let args := if llamaCliArgs.NoConversationCmdEnabled then
      args ++ [llamaCliArgs.NoConversationCmd] else args
  let args := if llamaCliArgs.NoContextShiftCmdEnabled then
      args ++ [llamaCliArgs.NoContextShiftCmd] else args
  args

/-- The model path block of prepareLlamaArgs, as the list it appends. -/
def modelArgs (cfg : LlamaCliArgs) (ov : CompletionArguments) : List String :=
  if ov.Model ≠ "" then [cfg.ModelCmd, ov.Model]
  else if cfg.ModelFullPathVal ≠ "" then [cfg.ModelCmd, cfg.ModelFullPathVal]
  else []

/-- The CPU threads block of prepareLlamaArgs. -/
def threadsArgs (cfg : LlamaCliArgs) (ov : CompletionArguments) : List String :=
  if 0 < ov.Threads then [cfg.ThreadsCmd, toString ov.Threads]
  else if parsesPositiveInt cfg.ThreadsVal then [cfg.ThreadsCmd, cfg.ThreadsVal]
  else []

/-- The GPU layers block of prepareLlamaArgs. -/
def gpuLayersArgs (cfg : LlamaCliArgs) (ov : CompletionArguments) : List String :=
  if 0 < ov.GpuLayers then [cfg.GPULayersCmd, toString ov.GpuLayers]
  else if parsesPositiveInt cfg.GPULayersVal then [cfg.GPULayersCmd, cfg.GPULayersVal]
  else []

/-- The context size block of prepareLlamaArgs. -/
def ctxSizeArgs (cfg : LlamaCliArgs) (ov : CompletionArguments) : List String :=
  if 0 < ov.CtxSize then [cfg.CtxSizeCmd, toString ov.CtxSize]
  else if parsesPositiveInt cfg.CtxSizeVal then [cfg.CtxSizeCmd, cfg.CtxSizeVal]
  else []

/-- The batch size block of prepareLlamaArgs. -/
def batchArgs (cfg : LlamaCliArgs) (ov : CompletionArguments) : List String :=
  if 0 < ov.BatchSize then [cfg.BatchCmd, toString ov.BatchSize]
  else if parsesPositiveInt cfg.BatchCmdVal then [cfg.BatchCmd, cfg.BatchCmdVal]
  else []

/-- The prediction length block of prepareLlamaArgs. -/
def predictArgs (cfg : LlamaCliArgs) (ov : CompletionArguments) : List String :=
  if 0 < ov.Predict then [cfg.PredictCmd, toString ov.Predict]
  else if parsesPositiveInt cfg.PredictVal then [cfg.PredictCmd, cfg.PredictVal]
  else []

/-- The temperature block of prepareLlamaArgs. -/
def temperatureArgs (cfg : LlamaCliArgs) (ov : CompletionArguments) : List String :=
  if 0 < ov.Temperature then [cfg.TemperatureCmd, fmtF2 ov.Temperature]
  else if parsesPositiveFloat cfg.TemperatureVal then [cfg.TemperatureCmd, cfg.TemperatureVal]
  else []

/-- The top K block of prepareLlamaArgs. -/
def topKArgs (cfg : LlamaCliArgs) (ov : CompletionArguments) : List String :=
  if 0 < ov.TopK then [cfg.TopKCmd, toString ov.TopK]
  else if parsesPositiveInt cfg.TopKVal then [cfg.TopKCmd, cfg.TopKVal]
  else []

/-- The top P block of prepareLlamaArgs. -/
def topPArgs (cfg : LlamaCliArgs) (ov : CompletionArguments) : List String :=
  if 0 < ov.TopP then [cfg.TopPCmd, fmtF2 ov.TopP]
  else if parsesPositiveFloat cfg.TopPVal then [cfg.TopPCmd, cfg.TopPVal]
  else []

/-- The repeat penalty block of prepareLlamaArgs. -/
def repeatPenaltyArgs (cfg : LlamaCliArgs) (ov : CompletionArguments) : List String :=
  if 0 < ov.RepeatPenalty then [cfg.RepeatPenaltyCmd, fmtF2 ov.RepeatPenalty]
  else if parsesPositiveFloat cfg.RepeatPenaltyVal then
    [cfg.RepeatPenaltyCmd, cfg.RepeatPenaltyVal]
  else []

/-- The prompt block of prepareLlamaArgs (main.go lines 1029 to 1035): the
prompt file override wins, otherwise a nonempty direct prompt is emitted. -/
def promptArgs (cfg : LlamaCliArgs) (ov : CompletionArguments) : List String :=
  if ov.PromptFile ≠ "" then [cfg.PromptFileCmd, ov.PromptFile]
  else if ov.Prompt ≠ "" then [cfg.PromptCmd, ov.Prompt]
  else []

/-- The log file block of prepareLlamaArgs. -/
def logFileArgs (cfg : LlamaCliArgs) (ov : CompletionArguments) : List String :=
  if ov.LogFile ≠ "" then [cfg.ModelLogFileCmd, ov.LogFile]
  else if cfg.ModelLogFileNameVal ≠ "" then [cfg.ModelLogFileCmd, cfg.ModelLogFileNameVal]
  else []

/-- The multiline input switch of prepareLlamaArgs. -/
def multilineInputArgs (cfg : LlamaCliArgs) : List String :=
  if cfg.MultilineInputCmdEnabled then [cfg.MultilineInputCmd] else []

/-- The flash attention switch of prepareLlamaArgs. -/
def flashAttentionArgs (cfg : LlamaCliArgs) : List String :=
  if cfg.FlashAttentionCmdEnabled then [cfg.FlashAttentionCmd] else []

/-- The prompt cache pair of prepareLlamaArgs. -/
def promptCacheArgs (cfg : LlamaCliArgs) : List String :=
  if cfg.PromptCacheVal ≠ "" then [cfg.PromptCacheCmd, cfg.PromptCacheVal] else []

/-- The no display prompt switch of prepareLlamaArgs. -/
def noDisplayPromptArgs (cfg : LlamaCliArgs) : List String :=
  if cfg.NoDisplayPromptEnabled then [cfg.NoDisplayPromptCmd] else []

/-- The escape newlines switch of prepareLlamaArgs. -/
def escapeNewLinesArgs (cfg : LlamaCliArgs) : List String :=
  if cfg.EscapeNewLinesCmdEnabled then [cfg.EscapeNewLinesCmd] else []

/-- The no conversation switch of prepareLlamaArgs. -/
def noConversationArgs (cfg : LlamaCliArgs) : List String :=
  if cfg.NoConversationCmdEnabled then [cfg.NoConversationCmd] else []

/-- The no context shift switch of prepareLlamaArgs. -/
def noContextShiftArgs (cfg : LlamaCliArgs) : List String :=
  if cfg.NoContextShiftCmdEnabled then [cfg.NoContextShiftCmd] else []

/-- The trailing static only flags of prepareLlamaArgs, in source order.
These depend on the configuration alone: no per request override reaches
them, which the type of this function makes explicit. -/
def staticFlagAppendix (cfg : LlamaCliArgs) : List String :=
  multilineInputArgs cfg ++ flashAttentionArgs cfg ++ promptCacheArgs cfg ++
    noDisplayPromptArgs cfg ++ escapeNewLinesArgs cfg ++ noConversationArgs cfg ++
    noContextShiftArgs cfg

/-- Model of getEnvInt (types.go, lines 162 to 169), applied to the fetched
environment value: a nonempty value that parses as an integer is used,
anything else falls back. -/
def getEnvInt (val : String) (fallback : Int) : Int :=
  if val ≠ "" then
    match goAtoi val with
    | some intVal => intVal
    | none => fallback
  else fallback

/-- ParseDefaultAppEnv (types.go, line 148) reads TimeOutSeconds with
fallback 300. -/
def parseTimeOutSeconds (envVal : String) : Int :=
  getEnvInt envVal 300

/-- The timeout normalization of handleCompletionTool (main.go, lines 896 to
899): nonpositive configured values fall back to 300 seconds. -/
def effectiveTimeoutSeconds (timeOutSeconds : Int) : Int :=
  if timeOutSeconds ≤ 0 then 300 else timeOutSeconds

/-- The deadline handed to the executor (main.go, line 902):
time.Duration(timeoutSeconds) multiplied by time.Second, in nanoseconds. -/
def completionDeadlineNanos (timeOutSeconds : Int) : Int :=
  effectiveTimeoutSeconds timeOutSeconds * 1000000000

/-- The view of a Go error value taken by handleCompletionTool: whether
errors.Is(err, context.DeadlineExceeded) holds, and the rendering of the
error by the verb %v. -/
structure GoError where
  isDeadlineExceeded : Bool
  message : String
deriving DecidableEq

/-- The MCP tool response built by handleCompletionTool: the list of text
contents (always a single element in this program). -/
structure ToolResponse where
  content : List String
deriving DecidableEq

/-- Transliteration of handleCompletionTool (main.go, lines 869 to 940),
with the outcome of GenerateSingleCompletionWithCancel supplied as the
execOutput and execErr parameters and the deadline state of the request
context at the check on line 914 supplied as ctxDeadlineExceeded. The
second component is the protocol level Go error return, which every return
statement of the Go function leaves nil. -/
def handleCompletionTool (arguments : CompletionArguments) (timeOutSeconds : Int)
    (execOutput : String) (execErr : Option GoError) (ctxDeadlineExceeded : Bool) :
    ToolResponse × Option GoError :=
  if arguments.Prompt = "" then
    ({ content := ["Error: Prompt cannot be empty"] }, none)
  else
    let timeoutSeconds := effectiveTimeoutSeconds timeOutSeconds
    match execErr with
    | some e =>
        if e.isDeadlineExceeded || ctxDeadlineExceeded then
          ({ content := ["Error: Completion timed out after " ++
              toString timeoutSeconds ++ " seconds"] }, none)
        else
          ({ content := ["Error generating completion: " ++ e.message] }, none)
    | none => ({ content := [execOutput] }, none)

/-- The error a Go context reports once its done channel is closed. -/
inductive CtxErr
  | canceled
  | deadlineExceeded
deriving DecidableEq

/-- The error side of the result pair produced inside the goroutine of
GenerateSingleCompletionWithCancel: either an error caused by the context
being done (Start refusing to launch, or the context killing the child), or
a failure of the process itself. -/
inductive GoErr
  | fromCtx (e : CtxErr)
  | exitFailure (msg : String)
deriving DecidableEq

/-- The pair sent over the result channel in model.go: captured standard
output and error, mirroring the anonymous struct of the source. -/
structure GoResult where
  output : Option String
  err : Option GoErr
deriving DecidableEq

/-- The control point of the goroutine spawned by
GenerateSingleCompletionWithCancel. -/
inductive ProducerState
  | entered
  | runningProc
  | sendPending (res : GoResult)
  | closingChan
  | exited
deriving DecidableEq

/-- The control point of the calling goroutine: at the select statement, or
returned through one of its two branches. -/
inductive MainState
  | selecting
  | returnedResult (res : GoResult)
  | returnedCtxErr (e : CtxErr)
deriving DecidableEq

/-- Joint state of one call to GenerateSingleCompletionWithCancel: the done
flag and error of the context, the two goroutines, and whether the child
process was ever spawned. -/
structure ExecState where
  ctxDone : Bool
  ctxErr : CtxErr
  producer : ProducerState
  main : MainState
  procStarted : Bool
deriving DecidableEq

/-- Small step semantics of GenerateSingleCompletionWithCancel (model.go,
lines 19 to 55) under the Go semantics of unbuffered channels, select and
exec.CommandContext:
- cancel: the context becomes done (deadline elapsing or caller cancellation).
- startAbort: Start called with an already done context returns the context
  error without spawning the child, so the goroutine moves directly to the
  channel send with a nil output and that error.
- startProc: Start spawns the child process when the context is not done.
- procDone: the Output call returns (normally, with a process failure, or
  because the done context killed the child); the result is unconstrained
  here, and the goroutine blocks on the unbuffered channel send.
- rendezvous: the unbuffered send pairs with the receive of the select, so
  the call returns the result pair and the goroutine proceeds to close.
- ctxBranch: the select takes the context done branch and the call returns
  a nil output with the context error.
- closeDone: after a completed send the goroutine closes the channel and
  exits. An unbuffered send can complete only through rendezvous: once the
  caller has returned there is no receiver, so no other rule moves a
  goroutine out of sendPending. -/
inductive ExecStep : ExecState → ExecState → Prop
  | cancel (s : ExecState) : s.ctxDone = false →
      ExecStep s { s with ctxDone := true }
  | startAbort (s : ExecState) : s.producer = ProducerState.entered →
      s.ctxDone = true →
      ExecStep s { s with
        producer := ProducerState.sendPending ⟨none, some (GoErr.fromCtx s.ctxErr)⟩ }
  | startProc (s : ExecState) : s.producer = ProducerState.entered →
      s.ctxDone = false →
      ExecStep s { s with producer := ProducerState.runningProc, procStarted := true }
  | procDone (s : ExecState) (res : GoResult) :
      s.producer = ProducerState.runningProc →
      ExecStep s { s with producer := ProducerState.sendPending res }
  | rendezvous (s : ExecState) (res : GoResult) :
      s.producer = ProducerState.sendPending res →
      s.main = MainState.selecting →
      ExecStep s { s with
        producer := ProducerState.closingChan,
        main := MainState.returnedResult res }
  | ctxBranch (s : ExecState) : s.main = MainState.selecting →
      s.ctxDone = true →
      ExecStep s { s with main := MainState.returnedCtxErr s.ctxErr }
  | closeDone (s : ExecState) : s.producer = ProducerState.closingChan →
      ExecStep s { s with producer := ProducerState.exited }

/-- Zero or more execution steps. -/
def ExecSteps : ExecState → ExecState → Prop :=
  Relation.ReflTransGen ExecStep

/-- Initial state of a call whose context deadline has already elapsed
before the call: the context is done with the deadline error, neither
goroutine has progressed, no child spawned. -/
def initExpiredCtx : ExecState :=
  ⟨true, CtxErr.deadlineExceeded, ProducerState.entered, MainState.selecting, false⟩

/-- Initial state of a call made with a live context that the caller will
cancel mid run. -/
def initCancelRun : ExecState :=
  ⟨false, CtxErr.canceled, ProducerState.entered, MainState.selecting, false⟩

/-- The result the killed child delivers: nil output and the context
cancellation error surfaced by the Output call. -/
def killedResult : GoResult :=
  ⟨none, some (GoErr.fromCtx CtxErr.canceled)⟩

/-- The state reached when the context is cancelled mid run and the select
takes the context branch: the call has returned the cancellation error, but
the goroutine is still blocked on the unbuffered channel send. -/
def leakedState : ExecState :=
  ⟨true, CtxErr.canceled, ProducerState.sendPending killedResult,
    MainState.returnedCtxErr CtxErr.canceled, true⟩

/-- The producer goroutine eventually terminates from the given state. -/
def ProducerEventuallyExits (t : ExecState) : Prop :=
  ∃ s, ExecSteps t s ∧ s.producer = ProducerState.exited

/-- Invariant of every state reachable from initExpiredCtx: the context
stays done with the deadline error, the child is never spawned, and every
result in flight is the nil output with the deadline error. -/
def ExpiredInv (s : ExecState) : Prop :=
  s.ctxDone = true ∧ s.ctxErr = CtxErr.deadlineExceeded ∧ s.procStarted = false ∧
  (s.producer = ProducerState.entered ∨
    s.producer = ProducerState.sendPending
      ⟨none, some (GoErr.fromCtx CtxErr.deadlineExceeded)⟩ ∨
    s.producer = ProducerState.closingChan ∨
    s.producer = ProducerState.exited) ∧
  (s.main = MainState.selecting ∨
    s.main = MainState.returnedResult
      ⟨none, some (GoErr.fromCtx CtxErr.deadlineExceeded)⟩ ∨
    s.main = MainState.returnedCtxErr CtxErr.deadlineExceeded)

/-- Example configuration used by the concrete witnesses: flag tokens as in
the example environment file of the repository. -/
def cfgEx : LlamaCliArgs :=
  { ModelCmd := "--model", ModelFullPathVal := "/models/m.gguf",
    PromptCmd := "--prompt", PromptText := "default prompt",
    PromptFileCmd := "--file",
    ThreadsCmd := "--threads", ThreadsVal := "8",
    CtxSizeCmd := "--ctx-size", CtxSizeVal := "40960",
    TemperatureCmd := "--temp", TemperatureVal := "0.8",
    TopKCmd := "--top-k", TopKVal := "40",
    TopPCmd := "--top-p", TopPVal := "0.9",
    RepeatPenaltyCmd := "--repeat-penalty", RepeatPenaltyVal := "1.1" }

/-- Example configuration with defaults that fail to parse numerically. -/
def cfgBadDefaults : LlamaCliArgs :=
  { ThreadsCmd := "--threads", ThreadsVal := "abc",
    GPULayersCmd := "--n-gpu-layers", GPULayersVal := "",
    CtxSizeCmd := "--ctx-size", CtxSizeVal := "12x8",
    BatchCmd := "--batch-size", BatchCmdVal := "-",
    PredictCmd := "--n-predict", PredictVal := "none",
    TemperatureCmd := "--temp", TemperatureVal := "warm",
    TopPCmd := "--top-p", TopPVal := "0.9.1",
    RepeatPenaltyCmd := "--repeat-penalty", RepeatPenaltyVal := "1,1" }

/-- Override set carrying only a direct prompt. -/
def ovPromptOnly : CompletionArguments :=
  { Prompt := "hello" }

/-- Override set with an explicit zero context size and a prompt. -/
def ovZeroCtx : CompletionArguments :=
  { Prompt := "hello", CtxSize := 0 }

/-- Override set with a temperature override of seven tenths. -/
def ovTempOverride : CompletionArguments :=
  { Prompt := "hello", Temperature := 7 / 10 }

/-- Override set whose prompt and prompt file are both empty. -/
def ovEmptyPrompt : CompletionArguments :=
  { Prompt := "", PromptFile := "" }

end ByteVisionMCP

namespace ByteVisionMCP

theorem ite_app (c : Prop) [Decidable c] (args x : List String) :
    (if c then args ++ x else args) = args ++ (if c then x else []) := by
  by_cases h : c <;> simp [h]

theorem ite_app_app (c : Prop) [Decidable c] (args x y : List String) :
    (if c then args ++ x else args ++ y) = args ++ (if c then x else y) := by
  by_cases h : c <;> simp [h]

/-- The sequential append blocks of prepareLlamaArgs concatenate the per
option segments in source order. -/
theorem prepareLlamaArgs_decomposition (cfg : LlamaCliArgs) (ov : CompletionArguments) :
    prepareLlamaArgs cfg ov =
      modelArgs cfg ov ++ threadsArgs cfg ov ++ gpuLayersArgs cfg ov ++
      ctxSizeArgs cfg ov ++ batchArgs cfg ov ++ predictArgs cfg ov ++
      temperatureArgs cfg ov ++ topKArgs cfg ov ++ topPArgs cfg ov ++
      repeatPenaltyArgs cfg ov ++ promptArgs cfg ov ++ logFileArgs cfg ov ++
      staticFlagAppendix cfg := by
  simp only [prepareLlamaArgs, modelArgs, threadsArgs, gpuLayersArgs, ctxSizeArgs,
    batchArgs, predictArgs, temperatureArgs, topKArgs, topPArgs, repeatPenaltyArgs,
    promptArgs, logFileArgs, staticFlagAppendix, multilineInputArgs, flashAttentionArgs,
    promptCacheArgs, noDisplayPromptArgs, escapeNewLinesArgs, noConversationArgs,
    noContextShiftArgs, ite_app, ite_app_app, List.nil_append, List.append_assoc]

theorem parsesPositiveInt_of_atoi {s : String} {n : Int} (h : goAtoi s = some n)
    (hn : 0 < n) : parsesPositiveInt s = true := by
  simp [parsesPositiveInt, h, hn]

theorem parsesPositiveInt_of_none {s : String} (h : goAtoi s = none) :
    parsesPositiveInt s = false := by
  simp [parsesPositiveInt, h]

theorem parsesPositiveFloat_of_none {s : String} (h : goParseFloat s = none) :
    parsesPositiveFloat s = false := by
  simp [parsesPositiveFloat, h]

theorem digitCharIsDigit {d : Nat} (h : d < 10) :
    (Char.ofNat (48 + d)).isDigit = true := by
  interval_cases d <;> decide

end ByteVisionMCP

namespace ByteVisionMCP

/-- Claim C1: with a nonempty prompt override and an empty prompt file
override the resolver emits exactly the one pair of the configured prompt
flag and the override prompt text verbatim; with a prompt file override
present only the prompt file pair is emitted; for any input the prompt block
emits at most one of the two pairs; and the output never depends on the
configured default prompt text, so a configured default prompt is never
emitted. -/
theorem prompt_override_resolution (cfg : LlamaCliArgs) (ov : CompletionArguments) :
    (ov.PromptFile = "" → ov.Prompt ≠ "" →
      promptArgs cfg ov = [cfg.PromptCmd, ov.Prompt]) ∧
    (ov.PromptFile ≠ "" →
      promptArgs cfg ov = [cfg.PromptFileCmd, ov.PromptFile]) ∧
    (promptArgs cfg ov = [cfg.PromptFileCmd, ov.PromptFile] ∨
      promptArgs cfg ov = [cfg.PromptCmd, ov.Prompt] ∨ promptArgs cfg ov = []) ∧
    (∀ t, prepareLlamaArgs { cfg with PromptText := t } ov = prepareLlamaArgs cfg ov) := by
  refine ⟨?_, ?_, ?_, fun t => rfl⟩
  · intro hf hp; simp [promptArgs, hf, hp]
  · intro hf; simp [promptArgs, hf]
  · by_cases hf : ov.PromptFile = ""
    · by_cases hp : ov.Prompt = ""
      · right; right; simp [promptArgs, hf, hp]
      · right; left; simp [promptArgs, hf, hp]
    · left; simp [promptArgs, hf]

/-- Concrete instance of claim C1: prompt override hello, no file override. -/
theorem prompt_override_resolution_witness :
    promptArgs cfgEx ovPromptOnly = ["--prompt", "hello"] :=
  (prompt_override_resolution cfgEx ovPromptOnly).1 rfl (by decide)

/-- Claim C3: every numeric override that is zero or negative makes the
resolver fall back to the configured default for that option, and the value
emitted on the fallback path is the configured default string itself,
verbatim; in particular a nonpositive context size override with a parsable
positive default yields the configured pair inside the resolved vector. -/
theorem numeric_override_fallback_to_default (cfg : LlamaCliArgs) (ov : CompletionArguments) :
    (ov.Threads ≤ 0 → threadsArgs cfg ov =
      (if parsesPositiveInt cfg.ThreadsVal then [cfg.ThreadsCmd, cfg.ThreadsVal] else [])) ∧
    (ov.GpuLayers ≤ 0 → gpuLayersArgs cfg ov =
      (if parsesPositiveInt cfg.GPULayersVal then [cfg.GPULayersCmd, cfg.GPULayersVal] else [])) ∧
    (ov.CtxSize ≤ 0 → ctxSizeArgs cfg ov =
      (if parsesPositiveInt cfg.CtxSizeVal then [cfg.CtxSizeCmd, cfg.CtxSizeVal] else [])) ∧
    (ov.BatchSize ≤ 0 → batchArgs cfg ov =
      (if parsesPositiveInt cfg.BatchCmdVal then [cfg.BatchCmd, cfg.BatchCmdVal] else [])) ∧
    (ov.Predict ≤ 0 → predictArgs cfg ov =
      (if parsesPositiveInt cfg.PredictVal then [cfg.PredictCmd, cfg.PredictVal] else [])) ∧
    (ov.TopK ≤ 0 → topKArgs cfg ov =
      (if parsesPositiveInt cfg.TopKVal then [cfg.TopKCmd, cfg.TopKVal] else [])) ∧
    (ov.Temperature ≤ 0 → temperatureArgs cfg ov =
      (if parsesPositiveFloat cfg.TemperatureVal then
        [cfg.TemperatureCmd, cfg.TemperatureVal] else [])) ∧
    (ov.TopP ≤ 0 → topPArgs cfg ov =
      (if parsesPositiveFloat cfg.TopPVal then [cfg.TopPCmd, cfg.TopPVal] else [])) ∧
    (ov.RepeatPenalty ≤ 0 → repeatPenaltyArgs cfg ov =
      (if parsesPositiveFloat cfg.RepeatPenaltyVal then
        [cfg.RepeatPenaltyCmd, cfg.RepeatPenaltyVal] else [])) ∧
    (ov.CtxSize ≤ 0 → parsesPositiveInt cfg.CtxSizeVal = true →
      List.IsInfix [cfg.CtxSizeCmd, cfg.CtxSizeVal] (prepareLlamaArgs cfg ov)) := by
  refine ⟨?_, ?_, ?_, ?_, ?_, ?_, ?_, ?_, ?_, ?_⟩
  · intro h; simp [threadsArgs, show ¬(0 < ov.Threads) from by omega]
  · intro h; simp [gpuLayersArgs, show ¬(0 < ov.GpuLayers) from by omega]
  · intro h; simp [ctxSizeArgs, show ¬(0 < ov.CtxSize) from by omega]
  · intro h; simp [batchArgs, show ¬(0 < ov.BatchSize) from by omega]
  · intro h; simp [predictArgs, show ¬(0 < ov.Predict) from by omega]
  · intro h; simp [topKArgs, show ¬(0 < ov.TopK) from by omega]
  · intro h; simp [temperatureArgs, not_lt.mpr h]
  · intro h; simp [topPArgs, not_lt.mpr h]
  · intro h; simp [repeatPenaltyArgs, not_lt.mpr h]
  · intro h hp
    have hctx : ctxSizeArgs cfg ov = [cfg.CtxSizeCmd, cfg.CtxSizeVal] := by
      simp [ctxSizeArgs, show ¬(0 < ov.CtxSize) from by omega, hp]
    refine ⟨modelArgs cfg ov ++ threadsArgs cfg ov ++ gpuLayersArgs cfg ov,
      batchArgs cfg ov ++ predictArgs cfg ov ++ temperatureArgs cfg ov ++
        topKArgs cfg ov ++ topPArgs cfg ov ++ repeatPenaltyArgs cfg ov ++
        promptArgs cfg ov ++ logFileArgs cfg ov ++ staticFlagAppendix cfg, ?_⟩
    rw [prepareLlamaArgs_decomposition cfg ov, hctx]
    simp [List.append_assoc]

/-- Concrete instance of claim C3: configured context size default 40960,
override zero, so the resolved vector contains the configured pair. -/
theorem numeric_override_fallback_to_default_witness :
    List.IsInfix ["--ctx-size", "40960"] (prepareLlamaArgs cfgEx ovZeroCtx) :=
  (numeric_override_fallback_to_default cfgEx ovZeroCtx).2.2.2.2.2.2.2.2.2
    (by decide) (by decide)

/-- Claim C4: the resolver is total (it always returns an argument vector),
it is deterministic so re running it adds nothing, and every configured
default string that fails to parse as its expected numeric type makes the
resolver omit the flag of that option entirely when the override is absent
or nonpositive. -/
theorem unparsable_default_flag_omitted (cfg : LlamaCliArgs) (ov : CompletionArguments) :
    (∃ v : List String, prepareLlamaArgs cfg ov = v) ∧
    prepareLlamaArgs cfg ov = prepareLlamaArgs cfg ov ∧
    (ov.Threads ≤ 0 → goAtoi cfg.ThreadsVal = none → threadsArgs cfg ov = []) ∧
    (ov.GpuLayers ≤ 0 → goAtoi cfg.GPULayersVal = none → gpuLayersArgs cfg ov = []) ∧
    (ov.CtxSize ≤ 0 → goAtoi cfg.CtxSizeVal = none → ctxSizeArgs cfg ov = []) ∧
    (ov.BatchSize ≤ 0 → goAtoi cfg.BatchCmdVal = none → batchArgs cfg ov = []) ∧
    (ov.Predict ≤ 0 → goAtoi cfg.PredictVal = none → predictArgs cfg ov = []) ∧
    (ov.TopK ≤ 0 → goAtoi cfg.TopKVal = none → topKArgs cfg ov = []) ∧
    (ov.Temperature ≤ 0 → goParseFloat cfg.TemperatureVal = none →
      temperatureArgs cfg ov = []) ∧
    (ov.TopP ≤ 0 → goParseFloat cfg.TopPVal = none → topPArgs cfg ov = []) ∧
    (ov.RepeatPenalty ≤ 0 → goParseFloat cfg.RepeatPenaltyVal = none →
      repeatPenaltyArgs cfg ov = []) := by
  refine ⟨⟨prepareLlamaArgs cfg ov, rfl⟩, rfl, ?_, ?_, ?_, ?_, ?_, ?_, ?_, ?_, ?_⟩
  · intro h hn
    simp [threadsArgs, show ¬(0 < ov.Threads) from by omega, parsesPositiveInt_of_none hn]
  · intro h hn
    simp [gpuLayersArgs, show ¬(0 < ov.GpuLayers) from by omega, parsesPositiveInt_of_none hn]
  · intro h hn
    simp [ctxSizeArgs, show ¬(0 < ov.CtxSize) from by omega, parsesPositiveInt_of_none hn]
  · intro h hn
    simp [batchArgs, show ¬(0 < ov.BatchSize) from by omega, parsesPositiveInt_of_none hn]
  · intro h hn
    simp [predictArgs, show ¬(0 < ov.Predict) from by omega, parsesPositiveInt_of_none hn]
  · intro h hn
    simp [topKArgs, show ¬(0 < ov.TopK) from by omega, parsesPositiveInt_of_none hn]
  · intro h hn
    simp [temperatureArgs, not_lt.mpr h, parsesPositiveFloat_of_none hn]
  · intro h hn
    simp [topPArgs, not_lt.mpr h, parsesPositiveFloat_of_none hn]
  · intro h hn
    simp [repeatPenaltyArgs, not_lt.mpr h, parsesPositiveFloat_of_none hn]

/-- Concrete instance of claim C4: a thread default of abc and a temperature
default of warm are silently skipped. -/
theorem unparsable_default_flag_omitted_witness :
    threadsArgs cfgBadDefaults ovEmptyPrompt = [] ∧
    temperatureArgs cfgBadDefaults ovEmptyPrompt = [] :=
  ⟨(unparsable_default_flag_omitted cfgBadDefaults ovEmptyPrompt).2.2.1
      (by decide) (by decide),
   (unparsable_default_flag_omitted cfgBadDefaults ovEmptyPrompt).2.2.2.2.2.2.2.1
      (by decide) (by decide)⟩

end ByteVisionMCP

namespace ByteVisionMCP

/-- Claim C5: a positive float override (temperature, top P, repeat penalty)
is stringified by the two decimal place formatter, whose output always ends
in a point followed by exactly two digit characters; a temperature sourced
from the configured default is emitted as the raw configured string; and an
override temperature of seven tenths yields the pair of the configured
temperature flag and the string 0.70, whatever the configured default
temperature string is. -/
theorem float_override_two_decimal_formatting (cfg : LlamaCliArgs)
    (ov : CompletionArguments) :
    (0 < ov.Temperature →
      temperatureArgs cfg ov = [cfg.TemperatureCmd, fmtF2 ov.Temperature]) ∧
    (0 < ov.TopP → topPArgs cfg ov = [cfg.TopPCmd, fmtF2 ov.TopP]) ∧
    (0 < ov.RepeatPenalty →
      repeatPenaltyArgs cfg ov = [cfg.RepeatPenaltyCmd, fmtF2 ov.RepeatPenalty]) ∧
    (ov.Temperature ≤ 0 → temperatureArgs cfg ov =
      (if parsesPositiveFloat cfg.TemperatureVal then
        [cfg.TemperatureCmd, cfg.TemperatureVal] else [])) ∧
    (∀ q : Rat, fmtF2 q = fmtF2IntPart q ++ "." ++ fmtF2FracPart q ∧
      (fmtF2FracPart q).length = 2 ∧
      (fmtF2FracPart q).toList.all Char.isDigit = true) ∧
    (ov.Temperature = 7 / 10 →
      temperatureArgs cfg ov = [cfg.TemperatureCmd, "0.70"]) := by
  refine ⟨?_, ?_, ?_, ?_, ?_, ?_⟩
  · intro h; simp [temperatureArgs, h]
  · intro h; simp [topPArgs, h]
  · intro h; simp [repeatPenaltyArgs, h]
  · intro h; simp [temperatureArgs, not_lt.mpr h]
  · intro q
    refine ⟨rfl, rfl, ?_⟩
    have h1 : (fmtF2Scaled q / 10) % 10 < 10 := Nat.mod_lt _ (by norm_num)
    have h2 : fmtF2Scaled q % 10 < 10 := Nat.mod_lt _ (by norm_num)
    simp [fmtF2FracPart, String.toList, digitCharIsDigit h1, digitCharIsDigit h2]
  · intro h
    have hpos : 0 < ov.Temperature := by rw [h]; norm_num
    have hbridge : ∀ r : Rat, r.floor = ⌊r⌋ := fun r => by
      rw [Rat.floor_def', Rat.floor_def]
    have h1 : (|(7 / 10 : Rat)| * 100 + 1 / 2 : Rat) = ((141 : Int) : Rat) / ((2 : Nat) : Rat) := by
      rw [abs_of_nonneg (by norm_num : (0 : Rat) ≤ 7 / 10)]
      norm_num
    have hsc : fmtF2Scaled (7 / 10 : Rat) = 70 := by
      unfold fmtF2Scaled
      rw [h1, hbridge, Rat.floor_intCast_div_natCast]
      rfl
    have hv : fmtF2 ov.Temperature = "0.70" := by
      rw [h]
      unfold fmtF2 fmtF2IntPart fmtF2FracPart
      rw [hsc, if_neg (by norm_num : ¬ (7 / 10 : Rat) < 0)]
      decide
    simp [temperatureArgs, hpos, hv]

/-- Concrete instance of claim C5: override temperature seven tenths with a
configured default temperature string 0.8 yields 0.70. -/
theorem float_override_two_decimal_formatting_witness :
    temperatureArgs cfgEx ovTempOverride = ["--temp", "0.70"] :=
  (float_override_two_decimal_formatting cfgEx ovTempOverride).2.2.2.2.2 rfl

/-- Claim C6: the resolver emits the options in one fixed order for every
input: model path, threads, GPU layers, context size, batch size, prediction
length, temperature, top K, top P, repeat penalty, the prompt block, the log
file block, then the static only switches multiline input, flash attention,
prompt cache, no display prompt, escape newlines, no conversation and no
context shift, each of which is a function of the configuration alone and so
has no per request override. -/
theorem resolver_fixed_flag_order (cfg : LlamaCliArgs) (ov : CompletionArguments) :
    prepareLlamaArgs cfg ov =
      modelArgs cfg ov ++ threadsArgs cfg ov ++ gpuLayersArgs cfg ov ++
      ctxSizeArgs cfg ov ++ batchArgs cfg ov ++ predictArgs cfg ov ++
      temperatureArgs cfg ov ++ topKArgs cfg ov ++ topPArgs cfg ov ++
      repeatPenaltyArgs cfg ov ++ promptArgs cfg ov ++ logFileArgs cfg ov ++
      (multilineInputArgs cfg ++ flashAttentionArgs cfg ++ promptCacheArgs cfg ++
        noDisplayPromptArgs cfg ++ escapeNewLinesArgs cfg ++ noConversationArgs cfg ++
        noContextShiftArgs cfg) := by
  rw [prepareLlamaArgs_decomposition cfg ov]; rfl

/-- Concrete instance of claim C6 at the example configuration. -/
theorem resolver_fixed_flag_order_witness :
    prepareLlamaArgs cfgEx ovPromptOnly =
      modelArgs cfgEx ovPromptOnly ++ threadsArgs cfgEx ovPromptOnly ++
      gpuLayersArgs cfgEx ovPromptOnly ++ ctxSizeArgs cfgEx ovPromptOnly ++
      batchArgs cfgEx ovPromptOnly ++ predictArgs cfgEx ovPromptOnly ++
      temperatureArgs cfgEx ovPromptOnly ++ topKArgs cfgEx ovPromptOnly ++
      topPArgs cfgEx ovPromptOnly ++ repeatPenaltyArgs cfgEx ovPromptOnly ++
      promptArgs cfgEx ovPromptOnly ++ logFileArgs cfgEx ovPromptOnly ++
      (multilineInputArgs cfgEx ++ flashAttentionArgs cfgEx ++ promptCacheArgs cfgEx ++
        noDisplayPromptArgs cfgEx ++ escapeNewLinesArgs cfgEx ++
        noConversationArgs cfgEx ++ noContextShiftArgs cfgEx) :=
  resolver_fixed_flag_order cfgEx ovPromptOnly

/-- Claim C10: when the prompt and the prompt file override are both empty
the resolver still returns normally and its prompt block is empty, so the
resolved vector consists of the other segments only and carries neither the
prompt flag pair nor the prompt file flag pair. -/
theorem empty_prompt_fields_yield_no_prompt_flags (cfg : LlamaCliArgs)
    (ov : CompletionArguments) (hp : ov.Prompt = "") (hf : ov.PromptFile = "") :
    promptArgs cfg ov = [] ∧
    prepareLlamaArgs cfg ov =
      modelArgs cfg ov ++ threadsArgs cfg ov ++ gpuLayersArgs cfg ov ++
      ctxSizeArgs cfg ov ++ batchArgs cfg ov ++ predictArgs cfg ov ++
      temperatureArgs cfg ov ++ topKArgs cfg ov ++ topPArgs cfg ov ++
      repeatPenaltyArgs cfg ov ++ logFileArgs cfg ov ++ staticFlagAppendix cfg := by
  have h1 : promptArgs cfg ov = [] := by simp [promptArgs, hp, hf]
  refine ⟨h1, ?_⟩
  rw [prepareLlamaArgs_decomposition cfg ov, h1]
  simp

/-- Concrete instance of claim C10: both prompt fields empty. -/
theorem empty_prompt_fields_yield_no_prompt_flags_witness :
    promptArgs cfgEx ovEmptyPrompt = [] ∧
    prepareLlamaArgs cfgEx ovEmptyPrompt =
      modelArgs cfgEx ovEmptyPrompt ++ threadsArgs cfgEx ovEmptyPrompt ++
      gpuLayersArgs cfgEx ovEmptyPrompt ++ ctxSizeArgs cfgEx ovEmptyPrompt ++
      batchArgs cfgEx ovEmptyPrompt ++ predictArgs cfgEx ovEmptyPrompt ++
      temperatureArgs cfgEx ovEmptyPrompt ++ topKArgs cfgEx ovEmptyPrompt ++
      topPArgs cfgEx ovEmptyPrompt ++ repeatPenaltyArgs cfgEx ovEmptyPrompt ++
      logFileArgs cfgEx ovEmptyPrompt ++ staticFlagAppendix cfgEx :=
  empty_prompt_fields_yield_no_prompt_flags cfgEx ovEmptyPrompt rfl rfl

end ByteVisionMCP

namespace ByteVisionMCP

/-- Claim C8: the request handler maps every execution outcome to a tool
level response and never returns a protocol level error: a success yields
the raw output text, a deadline exceeded failure yields the fixed timeout
message carrying the effective timeout in seconds, any other failure yields
a message carrying the rendering of the underlying error, and an empty
prompt yields the fixed validation message. -/
theorem handler_response_classification (args : CompletionArguments) (t : Int)
    (out : String) (err : Option GoError) (cd : Bool) :
    (handleCompletionTool args t out err cd).2 = none ∧
    (args.Prompt ≠ "" → err = none →
      (handleCompletionTool args t out err cd).1 = { content := [out] }) ∧
    (args.Prompt ≠ "" → ∀ e, err = some e → (e.isDeadlineExceeded || cd) = true →
      (handleCompletionTool args t out err cd).1 =
        { content := ["Error: Completion timed out after " ++
            toString (effectiveTimeoutSeconds t) ++ " seconds"] }) ∧
    (args.Prompt ≠ "" → ∀ e, err = some e → (e.isDeadlineExceeded || cd) = false →
      (handleCompletionTool args t out err cd).1 =
        { content := ["Error generating completion: " ++ e.message] }) ∧
    (args.Prompt = "" →
      (handleCompletionTool args t out err cd).1 =
        { content := ["Error: Prompt cannot be empty"] }) := by
  refine ⟨?_, ?_, ?_, ?_, ?_⟩
  · by_cases hp : args.Prompt = ""
    · simp [handleCompletionTool, hp]
    · cases err with
      | none => simp [handleCompletionTool, hp]
      | some e =>
          by_cases hd : (e.isDeadlineExceeded || cd) = true <;>
            simp [handleCompletionTool, hp, hd]
  · intro hp he; simp [handleCompletionTool, hp, he]
  · intro hp e he hd; simp [handleCompletionTool, hp, he, hd]
  · intro hp e he hd; simp [handleCompletionTool, hp, he, hd]
  · intro hp; simp [handleCompletionTool, hp]

/-- Concrete instances of claim C8: one per outcome class. -/
theorem handler_response_classification_witness :
    (handleCompletionTool ovPromptOnly 0 "ok" none false).1 = { content := ["ok"] } ∧
    (handleCompletionTool ovPromptOnly 0 "" (some ⟨true, "x"⟩) false).1 =
      { content := ["Error: Completion timed out after 300 seconds"] } ∧
    (handleCompletionTool ovPromptOnly 120 "" (some ⟨false, "exit status 1"⟩) false).1 =
      { content := ["Error generating completion: exit status 1"] } ∧
    (handleCompletionTool ovPromptOnly 120 "" (some ⟨false, "boom"⟩) false).2 = none :=
  ⟨(handler_response_classification ovPromptOnly 0 "ok" none false).2.1 (by decide) rfl,
   (handler_response_classification ovPromptOnly 0 "" (some ⟨true, "x"⟩) false).2.2.1
      (by decide) ⟨true, "x"⟩ rfl rfl,
   (handler_response_classification ovPromptOnly 120 ""
      (some ⟨false, "exit status 1"⟩) false).2.2.2.1 (by decide) ⟨false, "exit status 1"⟩ rfl rfl,
   (handler_response_classification ovPromptOnly 120 "" (some ⟨false, "boom"⟩) false).1⟩

/-- Claim C9: an absent or nonpositive configured timeout resolves to 300
seconds and a positive one to itself; the deadline handed to the executor is
the effective value in whole seconds converted to nanoseconds; and the
environment reader already maps an absent or unparsable value to the
fallback 300. -/
theorem timeout_configuration_resolution (t : Int) (s : String) :
    (t ≤ 0 → effectiveTimeoutSeconds t = 300) ∧
    (0 < t → effectiveTimeoutSeconds t = t) ∧
    completionDeadlineNanos t = effectiveTimeoutSeconds t * 1000000000 ∧
    parseTimeOutSeconds "" = 300 ∧
    (goAtoi s = none → parseTimeOutSeconds s = 300) ∧
    (∀ n, goAtoi s = some n → parseTimeOutSeconds s = n) ∧
    (t ≤ 0 → completionDeadlineNanos t = 300 * 1000000000) := by
  refine ⟨?_, ?_, rfl, rfl, ?_, ?_, ?_⟩
  · intro h; simp [effectiveTimeoutSeconds, h]
  · intro h; simp [effectiveTimeoutSeconds, show ¬ t ≤ 0 from by omega]
  · intro h
    by_cases hs : s = ""
    · subst hs; rfl
    · simp [parseTimeOutSeconds, getEnvInt, hs, h]
  · intro n h
    by_cases hs : s = ""
    · subst hs; simp [goAtoi] at h
    · simp [parseTimeOutSeconds, getEnvInt, hs, h]
  · intro h; simp [completionDeadlineNanos, effectiveTimeoutSeconds, h]

/-- Concrete instances of claim C9: configured zero and an unparsable
environment value both resolve to 300 seconds. -/
theorem timeout_configuration_resolution_witness :
    effectiveTimeoutSeconds 0 = 300 ∧ parseTimeOutSeconds "abc" = 300 ∧
    effectiveTimeoutSeconds 120 = 120 :=
  ⟨(timeout_configuration_resolution 0 "abc").1 (by decide),
   (timeout_configuration_resolution 0 "abc").2.2.2.2.1 (by decide),
   (timeout_configuration_resolution 120 "abc").2.1 (by decide)⟩

end ByteVisionMCP

namespace ByteVisionMCP

theorem expired_invariant_step (s s2 : ExecState) (hinv : ExpiredInv s)
    (hstep : ExecStep s s2) : ExpiredInv s2 := by
  obtain ⟨hd, he, hp, hprod, hmain⟩ := hinv
  cases hstep with
  | cancel hc => rw [hd] at hc; cases hc
  | startAbort hpe hcd =>
      refine ⟨hd, he, hp, Or.inr (Or.inl ?_), hmain⟩
      show ProducerState.sendPending ⟨none, some (GoErr.fromCtx s.ctxErr)⟩ = _
      rw [he]
  | startProc hpe hcd => rw [hd] at hcd; cases hcd
  | procDone res hpr =>
      rcases hprod with h | h | h | h <;> simp [h] at hpr
  | rendezvous res hpr hm =>
      rcases hprod with h | h | h | h
      · simp [h] at hpr
      · rw [h] at hpr
        injection hpr with hres
        refine ⟨hd, he, hp, Or.inr (Or.inr (Or.inl rfl)), Or.inr (Or.inl ?_)⟩
        show MainState.returnedResult res = _
        rw [← hres]
      · simp [h] at hpr
      · simp [h] at hpr
  | ctxBranch hm hcd =>
      refine ⟨hd, he, hp, hprod, Or.inr (Or.inr ?_)⟩
      show MainState.returnedCtxErr s.ctxErr = _
      rw [he]
  | closeDone hpr =>
      exact ⟨hd, he, hp, Or.inr (Or.inr (Or.inr rfl)), hmain⟩

/-- Claim C7: when the context deadline has already elapsed before the call,
every state the executor can reach has the child process never spawned, and
whichever select branch returns, the call delivers the deadline exceeded
context error with a nil output, so no processing of child process output
ever happens. -/
theorem expired_deadline_returns_timeout (s : ExecState)
    (h : ExecSteps initExpiredCtx s) :
    s.procStarted = false ∧
    (∀ e, s.main = MainState.returnedCtxErr e → e = CtxErr.deadlineExceeded) ∧
    (∀ res, s.main = MainState.returnedResult res →
      res.output = none ∧ res.err = some (GoErr.fromCtx CtxErr.deadlineExceeded)) := by
  have hinv : ExpiredInv s := by
    induction h with
    | refl => exact ⟨rfl, rfl, rfl, Or.inl rfl, Or.inl rfl⟩
    | tail hsteps hstep ih => exact expired_invariant_step _ _ ih hstep
  obtain ⟨hd, he, hp, hprod, hmain⟩ := hinv
  refine ⟨hp, ?_, ?_⟩
  · intro e hme
    rcases hmain with h1 | h1 | h1 <;> rw [h1] at hme
    · cases hme
    · cases hme
    · injection hme with h2; exact h2.symm
  · intro res hres
    rcases hmain with h1 | h1 | h1 <;> rw [h1] at hres
    · cases hres
    · injection hres with h2; rw [← h2]; exact ⟨rfl, rfl⟩
    · cases hres

/-- Concrete instance of claim C7: the initial expired state itself. -/
theorem expired_deadline_returns_timeout_witness :
    initExpiredCtx.procStarted = false ∧
    (∀ e, initExpiredCtx.main = MainState.returnedCtxErr e →
      e = CtxErr.deadlineExceeded) ∧
    (∀ res, initExpiredCtx.main = MainState.returnedResult res →
      res.output = none ∧ res.err = some (GoErr.fromCtx CtxErr.deadlineExceeded)) :=
  expired_deadline_returns_timeout initExpiredCtx Relation.ReflTransGen.refl

theorem leakedState_stuck (s2 : ExecState) (h : ExecStep leakedState s2) : False := by
  cases h with
  | cancel hc => simp [leakedState] at hc
  | startAbort hpe hcd => simp [leakedState] at hpe
  | startProc hpe hcd => simp [leakedState] at hpe
  | procDone res hpr => simp [leakedState] at hpr
  | rendezvous res hpr hm => simp [leakedState] at hm
  | ctxBranch hm hcd => simp [leakedState] at hm
  | closeDone hpr => simp [leakedState] at hpr

/-- Claim C2, refuted on the code: the executor can reach, from a live
context later cancelled mid run, a state in which the call has returned the
context cancellation error while the goroutine is still blocked on the
unbuffered result channel send; that state is terminal, so the producer
goroutine never terminates. The channel in model.go is created without a
buffer and the only receive is the select of the caller, so once the
context branch wins the race the send can never complete: the producer side
does not always terminate, contrary to the claim. -/
theorem cancelled_run_leaks_producer :
    ExecSteps initCancelRun leakedState ∧
    leakedState.main = MainState.returnedCtxErr CtxErr.canceled ∧
    leakedState.producer = ProducerState.sendPending killedResult ∧
    ¬ ProducerEventuallyExits leakedState := by
  refine ⟨?_, rfl, rfl, ?_⟩
  · exact Relation.ReflTransGen.head (ExecStep.startProc _ rfl rfl)
      (Relation.ReflTransGen.head (ExecStep.cancel _ rfl)
        (Relation.ReflTransGen.head (ExecStep.procDone _ killedResult rfl)
          (Relation.ReflTransGen.single (ExecStep.ctxBranch _ rfl rfl))))
  · rintro ⟨s, hsteps, hexit⟩
    rcases Relation.ReflTransGen.cases_head hsteps with h | ⟨u, hstep, _⟩
    · rw [← h] at hexit; simp [leakedState] at hexit
    · exact leakedState_stuck u hstep

end ByteVisionMCP
